import Mathlib

/-
  Verification development for the google-analytics-mcp repository.

  The Python sources (full_mcp_api.py, simple_api.py, analytics_mcp/http_server.py,
  start_mcp.py) are shallowly embedded below.  The vendor Google Analytics client
  library is an external collaborator: each vendor call is modelled as an oracle
  argument of type `Except String _` (the `error` branch carrying the Python
  exception's `str(e)` rendering).  Response bodies are modelled by a plain JSON
  value type; a handler's outcome is either a normal return (HTTP 200 with a JSON
  body) or a raised `HTTPException(status_code, detail)`, which FastAPI renders as
  a response of that status whose body is the object with a single `detail` field.
-/

/-- A JSON-serializable value, the shape of every response body in the repo. -/
inductive Json where
  | null : Json
  | bool : Bool → Json
  | num : Int → Json
  | str : String → Json
  | arr : List Json → Json
  | obj : List (String × Json) → Json

/-- Field lookup on a JSON object (first binding wins); `none` on non-objects. -/
def Json.lookup : Json → String → Option Json
  | Json.obj fields, key => List.lookup key fields
  | _, _ => none

/-- The keys of a JSON object, in order; `[]` on non-objects. -/
def Json.keys : Json → List String
  | Json.obj fields => fields.map Prod.fst
  | _ => []

/-- Outcome of a FastAPI handler: a normal (200) JSON return, or a raised
    `HTTPException(status_code=s, detail=d)`. -/
inductive HandlerResult where
  | ok : Json → HandlerResult
  | httpError : Nat → String → HandlerResult

/-- An HTTP response: status code and JSON body. -/
structure HttpResponse where
  status : Nat
  body : Json

/-- FastAPI semantics: a normal return is a 200 with the returned body; a raised
    `HTTPException(s, d)` becomes status `s` with body `{"detail": d}`. -/
def toResponse : HandlerResult → HttpResponse
  | HandlerResult.ok j => { status := 200, body := j }
  | HandlerResult.httpError s d =>
      { status := s, body := Json.obj [("detail", Json.str d)] }

/-- Python `str(x) if x else None` on an optional vendor field (timestamps etc.):
    present values are carried already rendered by `str`. -/
def optToJson : Option String → Json
  | some s => Json.str s
  | none => Json.null

/-- Python `name.split('/')[-1]`: `str.split` never returns an empty list, so the
    last element is total (`""` is unreachable as the default). -/
def lastSegment (s : String) : String :=
  (s.splitOn "/").getLastD ""

/-! ## Report data model (full_mcp_api.py lines 104-109, simple_api.py lines 78-83) -/

/-- The pydantic `ReportRequest` body, with its field defaults. -/
structure ReportRequest where
  property_id : String
  start_date : String := "7daysAgo"
  end_date : String := "today"
  metrics : List String := ["sessions", "users"]
  dimensions : List String := ["country"]

/-- A vendor `Dimension(name=...)` argument object. -/
structure Dimension where
  name : String

/-- A vendor `Metric(name=...)` argument object. -/
structure Metric where
  name : String

/-- A vendor `DateRange(start_date=..., end_date=...)` argument object. -/
structure DateRange where
  start_date : String
  end_date : String

/-- The vendor `RunReportRequest` built by the handlers. -/
structure RunReportRequest where
  property : String
  dimensions : List Dimension
  metrics : List Metric
  date_ranges : List DateRange

/-- The vendor `RunRealtimeReportRequest` built by the realtime handlers. -/
structure RunRealtimeReportRequest where
  property : String
  dimensions : List Dimension
  metrics : List Metric

/-- A vendor dimension/metric header object, accessed via `header.name`. -/
structure Header where
  name : String

/-- A vendor row cell, accessed via `value.value`. -/
structure CellValue where
  value : String

/-- A vendor report row with its `dimension_values` and `metric_values`. -/
structure ReportRow where
  dimension_values : List CellValue
  metric_values : List CellValue

/-- A vendor `RunReportResponse` (the realtime response has the same shape). -/
structure RunReportResponse where
  dimension_headers : List Header
  metric_headers : List Header
  rows : List ReportRow

/-- The response-shaping block shared verbatim by `run_report` (both API files)
    and `run_realtime_report`: headers map to their names, each row to its
    dimension/metric value strings. -/
def shapedReport (response : RunReportResponse) : Json :=
  Json.obj [
    ("dimension_headers",
      Json.arr (response.dimension_headers.map (fun header => Json.str header.name))),
    ("metric_headers",
      Json.arr (response.metric_headers.map (fun header => Json.str header.name))),
    ("rows",
      Json.arr (response.rows.map (fun row => Json.obj [
        ("dimensions",
          Json.arr (row.dimension_values.map (fun value => Json.str value.value))),
        ("metrics",
          Json.arr (row.metric_values.map (fun value => Json.str value.value)))])))]

/-- `POST /report` of full_mcp_api.py (`run_report`, lines 253-290).  The vendor
    oracle covers client construction and `client.run_report` together: both sit
    inside the same `try` and any exception maps to the same 500. -/
def run_report_full (gaAvailable : Bool)
    (vendor : RunReportRequest → Except String RunReportResponse)
    (report : ReportRequest) : HandlerResult :=
  if gaAvailable = false then
    HandlerResult.httpError 500 "Google Analytics libraries not available"
  else
    let request : RunReportRequest := {
      property := "properties/" ++ report.property_id,
      dimensions := report.dimensions.map (fun dim => { name := dim }),
      metrics := report.metrics.map (fun metric => { name := metric }),
      date_ranges := [{ start_date := report.start_date, end_date := report.end_date }] }
    match vendor request with
    | Except.error e => HandlerResult.httpError 500 ("Error running report: " ++ e)
    | Except.ok response => HandlerResult.ok (shapedReport response)

/-- `POST /report` of simple_api.py (`run_report`, lines 178-215), embedded
    separately from its own source text. -/
def run_report_simple (gaAvailable : Bool)
    (vendor : RunReportRequest → Except String RunReportResponse)
    (report : ReportRequest) : HandlerResult :=
  if gaAvailable = false then
    HandlerResult.httpError 500 "Google Analytics libraries not available"
  else
    let request : RunReportRequest := {
      property := "properties/" ++ report.property_id,
      dimensions := report.dimensions.map (fun dim => { name := dim }),
      metrics := report.metrics.map (fun metric => { name := metric }),
      date_ranges := [{ start_date := report.start_date, end_date := report.end_date }] }
    match vendor request with
    | Except.error e => HandlerResult.httpError 500 ("Error running report: " ++ e)
    | Except.ok response => HandlerResult.ok (shapedReport response)

/-- `POST /realtime-report/{property_id}` of full_mcp_api.py (`run_realtime_report`,
    lines 293-326): fixed dimension `country` and metric `activeUsers`. -/
def run_realtime_report_full (gaAvailable : Bool)
    (vendor : RunRealtimeReportRequest → Except String RunReportResponse)
    (property_id : String) : HandlerResult :=
  if gaAvailable = false then
    HandlerResult.httpError 500 "Google Analytics libraries not available"
  else
    let request : RunRealtimeReportRequest := {
      property := "properties/" ++ property_id,
      dimensions := [{ name := "country" }],
      metrics := [{ name := "activeUsers" }] }
    match vendor request with
    | Except.error e => HandlerResult.httpError 500 ("Error running realtime report: " ++ e)
    | Except.ok response => HandlerResult.ok (shapedReport response)

/-! ## Admin data model (accounts, properties, ads links, custom definitions) -/

/-- A vendor account object.  `create_time`/`update_time` model the optional
    timestamp (already `str`-rendered when present); `account_type` models
    `getattr(account, 'account_type', 'STANDARD')`, absent as `none`. -/
structure VendorAccount where
  name : String
  display_name : String
  create_time : Option String := none
  update_time : Option String := none
  account_type : Option String := none

/-- A vendor property object.  Every optional attribute read through `getattr`
    with a default (or truthiness-guarded `str(...)`) is an `Option`. -/
structure VendorProperty where
  name : String
  display_name : String
  create_time : Option String := none
  update_time : Option String := none
  website_url : Option String := none
  time_zone : Option String := none
  currency_code : Option String := none
  industry_category : Option String := none
  service_level : Option String := none
  property_type : Option String := none

/-- The nested property mapping built inside `get_account_summaries`
    (full_mcp_api.py lines 158-166). -/
def shapeAccountProperty (prop : VendorProperty) : Json :=
  Json.obj [
    ("name", Json.str prop.name),
    ("display_name", Json.str prop.display_name),
    ("property_id", Json.str (lastSegment prop.name)),
    ("create_time", optToJson prop.create_time),
    ("website_url", Json.str (prop.website_url.getD "")),
    ("time_zone", Json.str (prop.time_zone.getD "")),
    ("currency_code", Json.str (prop.currency_code.getD ""))]

/-- One account entry of `get_account_summaries` (full_mcp_api.py lines 153-177):
    the per-account property sub-fetch sits in its own try/except, so a failure
    leaves `properties` as the empty list and the account is still appended. -/
def accountEntry (listProps : String → Except String (List VendorProperty))
    (account : VendorAccount) : Json :=
  let properties : List Json :=
    match listProps account.name with
    | Except.ok props => props.map shapeAccountProperty
    | Except.error _ => []
  Json.obj [
    ("name", Json.str account.name),
    ("display_name", Json.str account.display_name),
    ("create_time", optToJson account.create_time),
    ("update_time", optToJson account.update_time),
    ("account_type", Json.str (account.account_type.getD "STANDARD")),
    ("properties", Json.arr properties)]

/-- `GET /accounts` of full_mcp_api.py (`get_account_summaries`, lines 141-182).
    The `listAccounts` oracle covers client construction plus `list_accounts`
    (both in the outer try, both mapped to the same 500). -/
def get_account_summaries_full (gaAvailable : Bool)
    (listAccounts : Except String (List VendorAccount))
    (listProps : String → Except String (List VendorProperty)) : HandlerResult :=
  if gaAvailable = false then
    HandlerResult.httpError 500 "Google Analytics libraries not available"
  else
    match listAccounts with
    | Except.error e => HandlerResult.httpError 500 ("Error fetching accounts: " ++ e)
    | Except.ok accounts =>
        HandlerResult.ok (Json.obj
          [("accounts", Json.arr (accounts.map (accountEntry listProps)))])

/-- The property mapping of `get_property_details` (full_mcp_api.py lines 200-212). -/
def shapePropertyDetails (property_id : String) (p : VendorProperty) : Json :=
  Json.obj [
    ("name", Json.str p.name),
    ("display_name", Json.str p.display_name),
    ("property_id", Json.str property_id),
    ("create_time", optToJson p.create_time),
    ("update_time", optToJson p.update_time),
    ("website_url", Json.str (p.website_url.getD "")),
    ("time_zone", Json.str (p.time_zone.getD "")),
    ("currency_code", Json.str (p.currency_code.getD "")),
    ("industry_category", optToJson p.industry_category),
    ("service_level", optToJson p.service_level),
    ("property_type", optToJson p.property_type)]

/-- `GET /property/{property_id}` of full_mcp_api.py (`get_property_details`,
    lines 185-217). -/
def get_property_details_full (gaAvailable : Bool)
    (getProp : String → Except String VendorProperty)
    (property_id : String) : HandlerResult :=
  if gaAvailable = false then
    HandlerResult.httpError 500 "Google Analytics libraries not available"
  else
    match getProp ("properties/" ++ property_id) with
    | Except.error e =>
        HandlerResult.httpError 500 ("Error fetching property details: " ++ e)
    | Except.ok property_details =>
        HandlerResult.ok (shapePropertyDetails property_id property_details)

/-- A vendor Google Ads link object. -/
structure VendorAdsLink where
  name : String
  display_name : Option String := none
  customer_id : Option String := none
  ads_personalization_enabled : Option Bool := none
  create_time : Option String := none
  update_time : Option String := none

/-- One ads-link mapping of `list_google_ads_links` (full_mcp_api.py lines
    237-245); `link_id` is `None` when `link.name` is falsy (empty). -/
def shapeAdsLink (link : VendorAdsLink) : Json :=
  Json.obj [
    ("name", Json.str link.name),
    ("display_name", Json.str (link.display_name.getD "")),
    ("customer_id", Json.str (link.customer_id.getD "")),
    ("ads_personalization_enabled", Json.bool (link.ads_personalization_enabled.getD false)),
    ("create_time", optToJson link.create_time),
    ("update_time", optToJson link.update_time),
    ("link_id", if link.name = "" then Json.null else Json.str (lastSegment link.name))]

/-- `GET /ads-links/{property_id}` of full_mcp_api.py (`list_google_ads_links`,
    lines 220-250). -/
def list_google_ads_links_full (gaAvailable : Bool)
    (listLinks : String → Except String (List VendorAdsLink))
    (property_id : String) : HandlerResult :=
  if gaAvailable = false then
    HandlerResult.httpError 500 "Google Analytics libraries not available"
  else
    match listLinks ("properties/" ++ property_id) with
    | Except.error e =>
        HandlerResult.httpError 500 ("Error fetching Google Ads links: " ++ e)
    | Except.ok ads_links =>
        HandlerResult.ok (Json.obj [("links", Json.arr (ads_links.map shapeAdsLink))])

/-- A vendor custom dimension object. -/
structure VendorCustomDimension where
  name : String
  display_name : String
  parameter_name : String
  scope : Option String := none
  description : Option String := none
  disallow_ads_personalization : Option Bool := none

/-- A vendor custom metric object. -/
structure VendorCustomMetric where
  name : String
  display_name : String
  parameter_name : String
  measurement_unit : Option String := none
  scope : Option String := none
  description : Option String := none
  restricted_metric_type : Option String := none

/-- One custom-dimension mapping (full_mcp_api.py lines 348-356). -/
def shapeCustomDimension (dimension : VendorCustomDimension) : Json :=
  Json.obj [
    ("name", Json.str dimension.name),
    ("display_name", Json.str dimension.display_name),
    ("parameter_name", Json.str dimension.parameter_name),
    ("dimension_id", if dimension.name = "" then Json.null
                     else Json.str (lastSegment dimension.name)),
    ("scope", optToJson dimension.scope),
    ("description", Json.str (dimension.description.getD "")),
    ("disallow_ads_personalization",
      Json.bool (dimension.disallow_ads_personalization.getD false))]

/-- One custom-metric mapping (full_mcp_api.py lines 367-376). -/
def shapeCustomMetric (metric : VendorCustomMetric) : Json :=
  Json.obj [
    ("name", Json.str metric.name),
    ("display_name", Json.str metric.display_name),
    ("parameter_name", Json.str metric.parameter_name),
    ("metric_id", if metric.name = "" then Json.null
                  else Json.str (lastSegment metric.name)),
    ("measurement_unit", optToJson metric.measurement_unit),
    ("scope", optToJson metric.scope),
    ("description", Json.str (metric.description.getD "")),
    ("restricted_metric_type", optToJson metric.restricted_metric_type)]

/-- `GET /custom-dimensions-metrics/{property_id}` of full_mcp_api.py
    (`get_custom_dimensions_and_metrics`, lines 329-387).  Client construction
    (`clientInit`) sits in the outer try and maps to a 500; the two listing
    calls each sit inside an inner try/except whose failure leaves the
    respective collection empty and the handler returning a success. -/
def get_custom_dimensions_and_metrics_full (gaAvailable : Bool)
    (clientInit : Except String Unit)
    (listDims : String → Except String (List VendorCustomDimension))
    (listMets : String → Except String (List VendorCustomMetric))
    (property_id : String) : HandlerResult :=
  if gaAvailable = false then
    HandlerResult.httpError 500 "Google Analytics libraries not available"
  else
    match clientInit with
    | Except.error e =>
        HandlerResult.httpError 500 ("Error fetching custom dimensions and metrics: " ++ e)
    | Except.ok _ =>
        let property_name := "properties/" ++ property_id
        let custom_dimensions : List Json :=
          match listDims property_name with
          | Except.ok dims => dims.map shapeCustomDimension
          | Except.error _ => []
        let custom_metrics : List Json :=
          match listMets property_name with
          | Except.ok mets => mets.map shapeCustomMetric
          | Except.error _ => []
        HandlerResult.ok (Json.obj [
          ("property_id", Json.str property_id),
          ("custom_dimensions", Json.arr custom_dimensions),
          ("custom_metrics", Json.arr custom_metrics)])

/-- One property mapping of `list_all_properties` (full_mcp_api.py lines 409-422). -/
def allPropertiesEntry (account : VendorAccount) (prop : VendorProperty) : Json :=
  let property_id := if prop.name = "" then "unknown" else lastSegment prop.name
  Json.obj [
    ("property_id", Json.str property_id),
    ("name", Json.str prop.name),
    ("display_name", Json.str prop.display_name),
    ("account_name", Json.str account.display_name),
    ("account_id", Json.str account.name),
    ("website_url", Json.str (prop.website_url.getD "")),
    ("time_zone", Json.str (prop.time_zone.getD "")),
    ("currency_code", Json.str (prop.currency_code.getD "")),
    ("create_time", optToJson prop.create_time),
    ("property_type", Json.str (prop.property_type.getD "STANDARD"))]

/-- `GET /properties` of full_mcp_api.py (`list_all_properties`, lines 390-434).
    A failing per-account property listing hits `continue`: that account
    contributes no entries, the loop goes on. -/
def list_all_properties_full (gaAvailable : Bool)
    (listAccounts : Except String (List VendorAccount))
    (listProps : String → Except String (List VendorProperty)) : HandlerResult :=
  if gaAvailable = false then
    HandlerResult.httpError 500 "Google Analytics libraries not available"
  else
    match listAccounts with
    | Except.error e => HandlerResult.httpError 500 ("Error fetching properties: " ++ e)
    | Except.ok accounts =>
        let all_properties : List Json := accounts.flatMap (fun account =>
          match listProps account.name with
          | Except.ok props => props.map (allPropertiesEntry account)
          | Except.error _ => [])
        HandlerResult.ok (Json.obj [
          ("properties", Json.arr all_properties),
          ("total_count", Json.num (all_properties.length : Int))])

/-! ## Root, health and credential bootstrapping -/

/-- `GET /` of full_mcp_api.py (`root`, lines 111-129): reads the module-level
    `GA_AVAILABLE` and `CREDS_SUCCESS`/`CREDS_MESSAGE` globals. -/
def root_full (gaAvailable : Bool) (credsSuccess : Bool) (credsMessage : String) :
    HandlerResult :=
  HandlerResult.ok (Json.obj [
    ("message", Json.str "Google Analytics Full MCP API"),
    ("version", Json.str "2.0.0"),
    ("status", Json.str "running"),
    ("ga_available", Json.bool gaAvailable),
    ("credentials_set", Json.bool credsSuccess),
    ("credentials_message", Json.str credsMessage),
    ("mcp_tools", Json.arr [
      Json.str "get_account_summaries",
      Json.str "get_property_details",
      Json.str "list_google_ads_links",
      Json.str "run_report",
      Json.str "run_realtime_report",
      Json.str "get_custom_dimensions_and_metrics"])])

/-- `GET /health` of full_mcp_api.py (`health_check`, lines 131-138). -/
def health_check_full (gaAvailable : Bool) : HandlerResult :=
  HandlerResult.ok (Json.obj [
    ("status", Json.str "healthy"),
    ("service", Json.str "ga-full-mcp-api"),
    ("google_analytics", Json.bool gaAvailable)])

/-- `GET /health` of simple_api.py (`health_check`, lines 97-104). -/
def health_check_simple (gaAvailable : Bool) : HandlerResult :=
  HandlerResult.ok (Json.obj [
    ("status", Json.str "healthy"),
    ("service", Json.str "ga-simple-api"),
    ("google_analytics", Json.bool gaAvailable)])

/-- `GET /health` of analytics_mcp/http_server.py (`health`, lines 57-60). -/
def health_http_server : HandlerResult :=
  HandlerResult.ok (Json.obj [("status", Json.str "healthy")])

/-- The process environment, restricted to the two variables the bootstrapper
    touches. -/
structure Env where
  google_credentials_base64 : Option String
  google_application_credentials : Option String

/-- The filesystem as a path-to-bytes association list; a write prepends, a read
    takes the first binding, so a rewrite overwrites (`open(..., 'wb')`). -/
def FileSystem : Type := List (String × List Nat)

/-- Write (create or truncate-overwrite) a file. -/
def setFile (fs : FileSystem) (path : String) (data : List Nat) : FileSystem :=
  (path, data) :: fs

/-- Read a file's bytes, `none` when absent. -/
def getFile (fs : FileSystem) (path : String) : Option (List Nat) :=
  List.lookup path fs

/-- The state after a `setup_credentials` run: final environment and filesystem
    plus the `(success, message)` pair the function returns. -/
structure SetupResult where
  env : Env
  fs : FileSystem
  success : Bool
  message : String

/-- `setup_credentials` of full_mcp_api.py lines 29-60 (textually identical in
    simple_api.py lines 17-43 up to debug prints).  The Python stdlib collaborators
    are oracle parameters: `b64decode` is `base64.b64decode` (error = `str(e)` of
    the raised exception), `jsonParse` is open-for-read plus `json.load` on the
    written bytes (error = `str(e)`).  An empty-string variable is falsy in
    Python, so it takes the same branch as an absent one.  Note the file write
    and the `GOOGLE_APPLICATION_CREDENTIALS` assignment precede validation, so
    they survive a validation failure. -/
def setup_credentials (b64decode : String → Except String (List Nat))
    (jsonParse : List Nat → Except String Unit)
    (env : Env) (fs : FileSystem) : SetupResult :=
  match env.google_credentials_base64 with
  | none => { env := env, fs := fs, success := false,
              message := "GOOGLE_CREDENTIALS_BASE64 not set" }
  | some credentials_base64 =>
    if credentials_base64 = "" then
      { env := env, fs := fs, success := false,
        message := "GOOGLE_CREDENTIALS_BASE64 not set" }
    else
      match b64decode credentials_base64 with
      | Except.error e =>
          { env := env, fs := fs, success := false,
            message := "Error setting up credentials: " ++ e }
      | Except.ok credentials_data =>
          let fs2 := setFile fs "/app/credentials.json" credentials_data
          let env2 := { env with
            google_application_credentials := some "/app/credentials.json" }
          match jsonParse credentials_data with
          | Except.error e =>
              { env := env2, fs := fs2, success := false,
                message := "Error setting up credentials: " ++ e }
          | Except.ok _ =>
              { env := env2, fs := fs2, success := true,
                message := "Credentials successfully set up" }

/-! ## MCP-over-HTTP bridge (analytics_mcp/http_server.py) -/

/-- The `params` member of an inbound MCP request; `arguments` is the opaque
    keyword-binding payload handed to the tool. -/
structure McpParams (α : Type) where
  name : Option String
  arguments : α

/-- An inbound MCP request body after `request.json()`: `request.get("method")`
    and `request.get("params", \x7b\x7d)` are the only reads. -/
structure McpRequest (α : Type) where
  method : Option String
  params : Option (McpParams α)

/-- A registered tool: its docstring (`__doc__`), its `_mcp_input_schema`
    attribute when present, and its invocation (the `error` branch carries the
    raised exception's `str(e)`; the `ok` branch carries `str(result)`).  The
    sync/async distinction collapses: both arms call the same function. -/
structure McpTool (α : Type) where
  doc : Option String
  inputSchema : Json
  invoke : α → Except String String

/-- Python rendering of the possibly-absent tool name inside an f-string. -/
def pyStrOpt : Option String → String
  | some s => s
  | none => "None"

/-- `tool_name not in registry` / `registry[tool_name]`: a `None` name is never
    a key; otherwise first registration wins (dict keys are unique). -/
def lookupTool {α : Type} (registry : List (String × McpTool α)) :
    Option String → Option (McpTool α)
  | some n => List.lookup n registry
  | none => none

/-- `process_mcp_request` (http_server.py lines 108-182) over the registry
    `mcp._tool_manager._tools` (an insertion-ordered mapping). -/
def process_mcp_request {α : Type} [Inhabited α]
    (registry : List (String × McpTool α)) (request : McpRequest α) : Json :=
  let method := request.method
  if method = some "tools/list" then
    Json.obj [("tools", Json.arr (registry.map (fun entry =>
      Json.obj [
        ("name", Json.str entry.fst),
        ("description", Json.str (entry.snd.doc.getD "")),
        ("inputSchema", entry.snd.inputSchema)])))]
  else if method = some "tools/call" then
    let params := request.params.getD { name := none, arguments := default }
    let tool_name := params.name
    match lookupTool registry tool_name with
    | none =>
        Json.obj [
          ("error", Json.str ("Tool \x27" ++ pyStrOpt tool_name ++ "\x27 not found")),
          ("isError", Json.bool true)]
    | some tool_func =>
        match tool_func.invoke params.arguments with
        | Except.ok result =>
            Json.obj [("content", Json.arr [
              Json.obj [("type", Json.str "text"), ("text", Json.str result)]])]
        | Except.error e =>
            Json.obj [
              ("content", Json.arr [
                Json.obj [("type", Json.str "text"),
                          ("text", Json.str ("Error calling tool: " ++ e))]]),
              ("isError", Json.bool true)]
  else if method = some "initialize" then
    Json.obj [
      ("protocolVersion", Json.str "2024-11-05"),
      ("capabilities", Json.obj [("tools", Json.obj [])]),
      ("serverInfo", Json.obj [
        ("name", Json.str "Google Analytics MCP Server"),
        ("version", Json.str "0.1.1")])]
  else
    Json.obj [
      ("error", Json.str ("Unknown method: " ++ pyStrOpt method)),
      ("isError", Json.bool true)]

/-- `POST /message` (http_server.py lines 94-105).  A successfully parsed body
    goes through `process_mcp_request` and is returned plainly (status 200).
    When parsing or processing raises, the handler returns the Python tuple
    `(\x7b"error": ..., "type": ...\x7d, 500)`, which FastAPI JSON-encodes as a
    two-element array with the default 200 status (the tuple is not a status
    override). -/
def message_endpoint {α : Type} [Inhabited α]
    (registry : List (String × McpTool α))
    (inbound : Except (String × String) (McpRequest α)) : HttpResponse :=
  match inbound with
  | Except.ok body => { status := 200, body := process_mcp_request registry body }
  | Except.error err =>
      { status := 200,
        body := Json.arr [
          Json.obj [("error", Json.str err.fst), ("type", Json.str err.snd)],
          Json.num 500] }

/-! ## Claim C1: report rows match headers -/

/-- Well-formedness of a vendor report response: every row carries exactly one
    value per dimension header and one per metric header (what the vendor API
    guarantees for its responses). -/
def vendorWF (r : RunReportResponse) : Bool :=
  r.rows.all (fun row =>
    row.dimension_values.length == r.dimension_headers.length &&
    row.metric_values.length == r.metric_headers.length)

/-- One shaped row agrees with the given header counts. -/
def rowOk (dimCount metCount : Nat) (r : Json) : Bool :=
  match r.lookup "dimensions", r.lookup "metrics" with
  | some (Json.arr ds), some (Json.arr ms) =>
      ds.length == dimCount && ms.length == metCount
  | _, _ => false

/-- The claimed shape invariant of a shaped report body: each row's `dimensions`
    length equals the `dimension_headers` length, and likewise for metrics. -/
def reportShapeOk (j : Json) : Bool :=
  match j.lookup "dimension_headers", j.lookup "metric_headers", j.lookup "rows" with
  | some (Json.arr dh), some (Json.arr mh), some (Json.arr rows) =>
      rows.all (rowOk dh.length mh.length)
  | _, _, _ => false

theorem shapedReport_ok_of_wf {r : RunReportResponse} (h : vendorWF r = true) :
    reportShapeOk (shapedReport r) = true := by
  simp only [reportShapeOk, shapedReport, Json.lookup, List.lookup, beq_self_eq_true,
    String.reduceBEq, if_true, if_false, cond_true, cond_false]
  simp only [vendorWF, List.all_eq_true] at h
  simp only [List.all_eq_true, List.mem_map]
  rintro x ⟨row, hrow, rfl⟩
  simpa [rowOk, Json.lookup, List.lookup] using h row hrow

/-- A malformed vendor response: one dimension header and one metric header, but
    a row with no values at all. -/
def c1BadResponse : RunReportResponse :=
  { dimension_headers := [{ name := "country" }],
    metric_headers := [{ name := "sessions" }],
    rows := [{ dimension_values := [], metric_values := [] }] }

/-- The example request of the spec (section 8), with the model defaults. -/
def c1Request : ReportRequest :=
  { property_id := "123456", start_date := "7daysAgo", end_date := "today",
    metrics := ["sessions"], dimensions := ["country"] }

/-- A well-formed vendor response: the worked example of spec section 8. -/
def c1GoodResponse : RunReportResponse :=
  { dimension_headers := [{ name := "country" }],
    metric_headers := [{ name := "sessions" }],
    rows := [{ dimension_values := [{ value := "US" }],
               metric_values := [{ value := "42" }] }] }

/-- C1 counterexample: the claim quantifies over every vendor report response,
    but the handler copies the vendor row structure verbatim, so a vendor
    response whose row has fewer values than headers yields a shaped `POST
    /report` body violating the row/header length property. -/
theorem C1_counterexample :
    reportShapeOk
      (toResponse (run_report_full true (fun _ => Except.ok c1BadResponse) c1Request)).body
      = false := by decide

/-- C1 (amended): for every vendor report response satisfying the vendor length
    invariant (each row has one value per header), every successful `POST
    /report` and `POST /realtime-report/{id}` body satisfies: each row's
    `dimensions` length equals the `dimension_headers` length and each row's
    `metrics` length equals the `metric_headers` length. -/
theorem C1_report_rows_match_headers
    (vendor : RunReportRequest → Except String RunReportResponse)
    (vendorRt : RunRealtimeReportRequest → Except String RunReportResponse)
    (report : ReportRequest) (property_id : String) (j jrt : Json)
    (hwf : ∀ q r, vendor q = Except.ok r → vendorWF r = true)
    (hwfRt : ∀ q r, vendorRt q = Except.ok r → vendorWF r = true)
    (hj : run_report_full true vendor report = HandlerResult.ok j)
    (hjrt : run_realtime_report_full true vendorRt property_id = HandlerResult.ok jrt) :
    reportShapeOk j = true ∧ reportShapeOk jrt = true := by
  constructor
  · unfold run_report_full at hj
    simp only [Bool.true_eq_false, if_false] at hj
    split at hj
    · cases hj
    · cases hj
      rename_i r heq
      exact shapedReport_ok_of_wf (hwf _ _ heq)
  · unfold run_realtime_report_full at hjrt
    simp only [Bool.true_eq_false, if_false] at hjrt
    split at hjrt
    · cases hjrt
    · cases hjrt
      rename_i r heq
      exact shapedReport_ok_of_wf (hwfRt _ _ heq)

/-- Witness for C1 at the spec's worked example. -/
theorem C1_report_rows_match_headers_witness :
    reportShapeOk (shapedReport c1GoodResponse) = true ∧
    reportShapeOk (shapedReport c1GoodResponse) = true :=
  C1_report_rows_match_headers
    (fun _ => Except.ok c1GoodResponse) (fun _ => Except.ok c1GoodResponse)
    c1Request "123456" (shapedReport c1GoodResponse) (shapedReport c1GoodResponse)
    (fun _ r h => by injection h with h2; subst h2; decide)
    (fun _ r h => by injection h with h2; subst h2; decide)
    rfl rfl

/-! ## Claim C2: fixed Property field set -/

/-- A concrete vendor property with only required fields present. -/
def c2Prop : VendorProperty :=
  { name := "properties/123", display_name := "My Property" }

/-- A concrete vendor account. -/
def c2Account : VendorAccount :=
  { name := "accounts/1", display_name := "My Account" }

/-- C2 counterexample: the nested property mapping of `GET /accounts` carries no
    `property_type` key at all — the handler builds a seven-field mapping — so
    not every shaped Property mapping contains all eight schema fields. -/
theorem C2_counterexample :
    ¬ ("property_type" ∈ Json.keys (shapeAccountProperty c2Prop)) ∧
    get_account_summaries_full true (Except.ok [c2Account]) (fun _ => Except.ok [c2Prop]) =
      HandlerResult.ok (Json.obj [("accounts", Json.arr [Json.obj [
        ("name", Json.str "accounts/1"),
        ("display_name", Json.str "My Account"),
        ("create_time", Json.null),
        ("update_time", Json.null),
        ("account_type", Json.str "STANDARD"),
        ("properties", Json.arr [shapeAccountProperty c2Prop])]])]) :=
  ⟨by decide, rfl⟩

/-- C2 (amended): every shaped Property mapping has a fixed key set independent
    of the vendor object, with missing vendor fields defaulted (empty string or
    null), never omitted; but the `GET /accounts` nested property mapping
    contains only the seven fields name, display_name, property_id, create_time,
    website_url, time_zone, currency_code — it omits property_type — while
    `GET /property/id` and `GET /properties` mappings do contain property_type
    (plus their extra fields). -/
theorem C2_property_shape_fixed (p : VendorProperty) (property_id : String)
    (a : VendorAccount) :
    Json.keys (shapeAccountProperty p) =
      ["name", "display_name", "property_id", "create_time", "website_url",
       "time_zone", "currency_code"] ∧
    Json.keys (shapePropertyDetails property_id p) =
      ["name", "display_name", "property_id", "create_time", "update_time",
       "website_url", "time_zone", "currency_code", "industry_category",
       "service_level", "property_type"] ∧
    Json.keys (allPropertiesEntry a p) =
      ["property_id", "name", "display_name", "account_name", "account_id",
       "website_url", "time_zone", "currency_code", "create_time", "property_type"] ∧
    Json.lookup (shapeAccountProperty p) "website_url"
      = some (Json.str (p.website_url.getD "")) ∧
    Json.lookup (shapeAccountProperty p) "create_time"
      = some (optToJson p.create_time) ∧
    Json.lookup (shapePropertyDetails property_id p) "property_type"
      = some (optToJson p.property_type) :=
  ⟨rfl, rfl, rfl, rfl, rfl, rfl⟩

/-! ## Claim C3: error mapping to 500 with a detail body -/

/-- The expected FastAPI rendering of `HTTPException(500, msg)`. -/
def detail500 (msg : String) : HttpResponse :=
  { status := 500, body := Json.obj [("detail", Json.str msg)] }

/-- C3 counterexample: in `GET /custom-dimensions-metrics/id` a raising
    `list_custom_dimensions` vendor call is swallowed by the inner try/except
    and the endpoint returns a 200 success with an empty collection, so a
    vendor-call failure IS returned as a success response. -/
theorem C3_counterexample :
    toResponse (get_custom_dimensions_and_metrics_full true (Except.ok ())
        (fun _ => Except.error "boom") (fun _ => Except.ok []) "123456")
      = { status := 200,
          body := Json.obj [
            ("property_id", Json.str "123456"),
            ("custom_dimensions", Json.arr []),
            ("custom_metrics", Json.arr [])] } := rfl

/-- C3 (amended): for every analytics endpoint, when the vendor library is
    unavailable or the endpoint's top-level vendor interaction (client
    construction, primary listing/get/report call) raises, the response has
    status 500 and body with a single detail field carrying the message; but the
    per-item sub-fetches — the per-account property listing in `GET /accounts`
    and `GET /properties`, and the dimension/metric listings in
    `GET /custom-dimensions-metrics/id` — swallow their failures and the
    endpoint still returns a success. -/
theorem C3_error_mapping (e property_id : String)
    (la : Except String (List VendorAccount))
    (lp : String → Except String (List VendorProperty))
    (gp : String → Except String VendorProperty)
    (ll : String → Except String (List VendorAdsLink))
    (vr : RunReportRequest → Except String RunReportResponse)
    (vrt : RunRealtimeReportRequest → Except String RunReportResponse)
    (ld : String → Except String (List VendorCustomDimension))
    (lm : String → Except String (List VendorCustomMetric))
    (report : ReportRequest) :
    toResponse (get_account_summaries_full false la lp)
      = detail500 "Google Analytics libraries not available" ∧
    toResponse (get_account_summaries_full true (Except.error e) lp)
      = detail500 ("Error fetching accounts: " ++ e) ∧
    toResponse (get_property_details_full false gp property_id)
      = detail500 "Google Analytics libraries not available" ∧
    toResponse (get_property_details_full true (fun _ => Except.error e) property_id)
      = detail500 ("Error fetching property details: " ++ e) ∧
    toResponse (list_google_ads_links_full false ll property_id)
      = detail500 "Google Analytics libraries not available" ∧
    toResponse (list_google_ads_links_full true (fun _ => Except.error e) property_id)
      = detail500 ("Error fetching Google Ads links: " ++ e) ∧
    toResponse (run_report_full false vr report)
      = detail500 "Google Analytics libraries not available" ∧
    toResponse (run_report_full true (fun _ => Except.error e) report)
      = detail500 ("Error running report: " ++ e) ∧
    toResponse (run_realtime_report_full false vrt property_id)
      = detail500 "Google Analytics libraries not available" ∧
    toResponse (run_realtime_report_full true (fun _ => Except.error e) property_id)
      = detail500 ("Error running realtime report: " ++ e) ∧
    toResponse (get_custom_dimensions_and_metrics_full false (Except.ok ()) ld lm property_id)
      = detail500 "Google Analytics libraries not available" ∧
    toResponse (get_custom_dimensions_and_metrics_full true (Except.error e) ld lm property_id)
      = detail500 ("Error fetching custom dimensions and metrics: " ++ e) ∧
    toResponse (list_all_properties_full false la lp)
      = detail500 "Google Analytics libraries not available" ∧
    toResponse (list_all_properties_full true (Except.error e) lp)
      = detail500 ("Error fetching properties: " ++ e) ∧
    toResponse (run_report_simple false vr report)
      = detail500 "Google Analytics libraries not available" ∧
    toResponse (run_report_simple true (fun _ => Except.error e) report)
      = detail500 ("Error running report: " ++ e) :=
  ⟨rfl, rfl, rfl, rfl, rfl, rfl, rfl, rfl, rfl, rfl, rfl, rfl, rfl, rfl, rfl, rfl⟩

/-! ## Claims C4 and C5: MCP bridge error-in-band conventions -/

/-- C4: a `tools/call` whose `params.name` is not a key of the tool registry
    yields HTTP status 200 with an `isError: true` body (not a 404 or other
    HTTP error status). -/
theorem C4_unregistered_tool {α : Type} [Inhabited α]
    (registry : List (String × McpTool α)) (request : McpRequest α)
    (hm : request.method = some "tools/call")
    (hn : lookupTool registry
        (request.params.getD { name := none, arguments := default }).name = none) :
    (message_endpoint registry (Except.ok request)).status = 200 ∧
    Json.lookup (message_endpoint registry (Except.ok request)).body "isError"
      = some (Json.bool true) := by
  constructor
  · rfl
  · simp only [message_endpoint, process_mcp_request, hm, Option.some.injEq,
      String.reduceEq, if_false, if_true, reduceIte]
    rw [hn]
    simp [Json.lookup, List.lookup]

/-- A concrete request calling a tool on an empty registry. -/
def c4Request : McpRequest Unit := { method := some "tools/call", params := none }

/-- Witness for C4: empty registry, tool name absent. -/
theorem C4_unregistered_tool_witness :
    (message_endpoint ([] : List (String × McpTool Unit)) (Except.ok c4Request)).status = 200 ∧
    Json.lookup (message_endpoint ([] : List (String × McpTool Unit))
      (Except.ok c4Request)).body "isError" = some (Json.bool true) :=
  C4_unregistered_tool [] c4Request rfl rfl

/-- C5: when the registered tool's invocation raises with message `m`, the
    bridge returns the in-band error body with `Error calling tool: m` and
    `isError: true`, as a normal HTTP 200 response (never an HTTP fault). -/
theorem C5_tool_exception {α : Type} [Inhabited α]
    (registry : List (String × McpTool α)) (request : McpRequest α)
    (tool_func : McpTool α) (m : String)
    (hm : request.method = some "tools/call")
    (ht : lookupTool registry
        (request.params.getD { name := none, arguments := default }).name = some tool_func)
    (hr : tool_func.invoke
        (request.params.getD { name := none, arguments := default }).arguments
      = Except.error m) :
    message_endpoint registry (Except.ok request) =
      { status := 200,
        body := Json.obj [
          ("content", Json.arr [Json.obj [
            ("type", Json.str "text"),
            ("text", Json.str ("Error calling tool: " ++ m))]]),
          ("isError", Json.bool true)] } := by
  simp only [message_endpoint, process_mcp_request, hm, Option.some.injEq,
    String.reduceEq, if_false, if_true, reduceIte]
  simp only [ht, hr]

/-- A tool whose invocation always raises. -/
def c5Tool : McpTool Unit :=
  { doc := some "a failing tool", inputSchema := Json.obj [],
    invoke := fun _ => Except.error "boom" }

/-- A concrete `tools/call` request naming the registered tool `t`. -/
def c5Request : McpRequest Unit :=
  { method := some "tools/call", params := some { name := some "t", arguments := () } }

/-- Witness for C5: one registered tool that raises `boom`. -/
theorem C5_tool_exception_witness :
    message_endpoint [("t", c5Tool)] (Except.ok c5Request) =
      { status := 200,
        body := Json.obj [
          ("content", Json.arr [Json.obj [
            ("type", Json.str "text"),
            ("text", Json.str ("Error calling tool: " ++ "boom"))]]),
          ("isError", Json.bool true)] } :=
  C5_tool_exception [("t", c5Tool)] c5Request c5Tool "boom" rfl rfl rfl

/-! ## Claim C6: per-account partial-failure tolerance in GET /accounts -/

/-- C6: when one account's property listing fails, `GET /accounts` still
    succeeds, that account's entry appears with an empty `properties` list, and
    every account's entry depends only on the property oracle's answer for that
    account, so the failure leaves the other entries untouched. -/
theorem C6_partial_failure
    (accounts : List VendorAccount) (a : VendorAccount) (e : String)
    (lp lp2 : String → Except String (List VendorProperty))
    (ha : a ∈ accounts) (hfail : lp a.name = Except.error e) :
    get_account_summaries_full true (Except.ok accounts) lp =
      HandlerResult.ok (Json.obj
        [("accounts", Json.arr (accounts.map (accountEntry lp)))]) ∧
    accountEntry lp a = Json.obj [
      ("name", Json.str a.name),
      ("display_name", Json.str a.display_name),
      ("create_time", optToJson a.create_time),
      ("update_time", optToJson a.update_time),
      ("account_type", Json.str (a.account_type.getD "STANDARD")),
      ("properties", Json.arr [])] ∧
    accountEntry lp a ∈ accounts.map (accountEntry lp) ∧
    (∀ b : VendorAccount, lp2 b.name = lp b.name →
      accountEntry lp2 b = accountEntry lp b) := by
  refine ⟨rfl, ?_, List.mem_map.mpr ⟨a, ha, rfl⟩, ?_⟩
  · unfold accountEntry
    rw [hfail]
  · intro b hb
    unfold accountEntry
    rw [hb]

/-- A concrete account whose property listing will fail. -/
def c6Account : VendorAccount := { name := "accounts/9", display_name := "Acct" }

/-- A property oracle that always raises. -/
def c6LP : String → Except String (List VendorProperty) :=
  fun _ => Except.error "quota exceeded"

/-- Witness for C6 at a one-account listing whose property sub-fetch fails. -/
theorem C6_partial_failure_witness :
    get_account_summaries_full true (Except.ok [c6Account]) c6LP =
      HandlerResult.ok (Json.obj
        [("accounts", Json.arr ([c6Account].map (accountEntry c6LP)))]) ∧
    accountEntry c6LP c6Account = Json.obj [
      ("name", Json.str c6Account.name),
      ("display_name", Json.str c6Account.display_name),
      ("create_time", optToJson c6Account.create_time),
      ("update_time", optToJson c6Account.update_time),
      ("account_type", Json.str (c6Account.account_type.getD "STANDARD")),
      ("properties", Json.arr [])] ∧
    accountEntry c6LP c6Account ∈ [c6Account].map (accountEntry c6LP) ∧
    (∀ b : VendorAccount, c6LP b.name = c6LP b.name →
      accountEntry c6LP b = accountEntry c6LP b) :=
  C6_partial_failure [c6Account] c6Account "quota exceeded" c6LP c6LP
    (List.Mem.head _) rfl

/-! ## Claim C7: credential bootstrapper idempotence -/

/-- C7: with the `GOOGLE_CREDENTIALS_BASE64` variable fixed, running
    `setup_credentials` a second time (from the state the first run left) yields
    the same `(success, message)` pair and byte-identical content of
    `/app/credentials.json`: the write truncates and overwrites, and the run
    reads nothing but the (unchanged) input variable. -/
theorem C7_bootstrap_idempotent
    (b64decode : String → Except String (List Nat))
    (jsonParse : List Nat → Except String Unit)
    (env : Env) (fs : FileSystem) :
    (setup_credentials b64decode jsonParse
        (setup_credentials b64decode jsonParse env fs).env
        (setup_credentials b64decode jsonParse env fs).fs).success
      = (setup_credentials b64decode jsonParse env fs).success ∧
    (setup_credentials b64decode jsonParse
        (setup_credentials b64decode jsonParse env fs).env
        (setup_credentials b64decode jsonParse env fs).fs).message
      = (setup_credentials b64decode jsonParse env fs).message ∧
    getFile (setup_credentials b64decode jsonParse
        (setup_credentials b64decode jsonParse env fs).env
        (setup_credentials b64decode jsonParse env fs).fs).fs "/app/credentials.json"
      = getFile (setup_credentials b64decode jsonParse env fs).fs
          "/app/credentials.json" := by
  cases hg : env.google_credentials_base64 with
  | none => simp [setup_credentials, hg]
  | some s =>
    by_cases hs : s = ""
    · simp [setup_credentials, hg, hs]
    · cases hd : b64decode s with
      | error e => simp [setup_credentials, hg, hs, hd]
      | ok credentials_data =>
        cases hj : jsonParse credentials_data with
        | error e =>
            simp [setup_credentials, hg, hs, hd, hj, getFile, setFile, List.lookup]
        | ok u =>
            simp [setup_credentials, hg, hs, hd, hj, getFile, setFile, List.lookup]

/-! ## Claim C8: missing variable is a clean, non-raising failure -/

/-- C8: with `GOOGLE_CREDENTIALS_BASE64` absent, `setup_credentials` returns
    exactly `(false, "GOOGLE_CREDENTIALS_BASE64 not set")` (leaving environment
    and filesystem untouched, nothing raised), and `GET /`, which renders the
    stored bootstrapper result, returns HTTP 200 with `credentials_set: false`. -/
theorem C8_missing_env
    (b64decode : String → Except String (List Nat))
    (jsonParse : List Nat → Except String Unit)
    (env : Env) (fs : FileSystem) (ga : Bool)
    (h : env.google_credentials_base64 = none) :
    setup_credentials b64decode jsonParse env fs =
      { env := env, fs := fs, success := false,
        message := "GOOGLE_CREDENTIALS_BASE64 not set" } ∧
    (toResponse (root_full ga (setup_credentials b64decode jsonParse env fs).success
        (setup_credentials b64decode jsonParse env fs).message)).status = 200 ∧
    Json.lookup (toResponse (root_full ga
        (setup_credentials b64decode jsonParse env fs).success
        (setup_credentials b64decode jsonParse env fs).message)).body "credentials_set"
      = some (Json.bool false) := by
  have h1 : setup_credentials b64decode jsonParse env fs =
      { env := env, fs := fs, success := false,
        message := "GOOGLE_CREDENTIALS_BASE64 not set" } := by
    simp [setup_credentials, h]
  refine ⟨h1, rfl, ?_⟩
  rw [h1]
  simp [toResponse, root_full, Json.lookup, List.lookup]

/-- A concrete environment without the credentials variable. -/
def c8Env : Env := { google_credentials_base64 := none,
                     google_application_credentials := none }

/-- A concrete decode oracle (never reached here). -/
def c8Decode : String → Except String (List Nat) := fun _ => Except.ok []

/-- A concrete parse oracle (never reached here). -/
def c8Parse : List Nat → Except String Unit := fun _ => Except.ok ()

/-- Witness for C8 in the empty environment and empty filesystem. -/
theorem C8_missing_env_witness :
    setup_credentials c8Decode c8Parse c8Env [] =
      { env := c8Env, fs := [], success := false,
        message := "GOOGLE_CREDENTIALS_BASE64 not set" } ∧
    (toResponse (root_full true (setup_credentials c8Decode c8Parse c8Env []).success
        (setup_credentials c8Decode c8Parse c8Env []).message)).status = 200 ∧
    Json.lookup (toResponse (root_full true
        (setup_credentials c8Decode c8Parse c8Env []).success
        (setup_credentials c8Decode c8Parse c8Env []).message)).body "credentials_set"
      = some (Json.bool false) :=
  C8_missing_env c8Decode c8Parse c8Env [] true rfl

/-! ## Claim C9: health endpoints -/

/-- C9 counterexample: the full_mcp_api `GET /health` body is not the exact
    object with the single `status` field — it also carries `service` and
    `google_analytics` — so "returns the body with status healthy alone" fails
    as stated for that endpoint. -/
theorem C9_counterexample :
    ¬ ((toResponse (health_check_full true)).body
        = Json.obj [("status", Json.str "healthy")]) := by
  simp [toResponse, health_check_full]

/-- C9 (amended): every `GET /health` succeeds with HTTP 200 and a body whose
    `status` field is `healthy`, for both values of the vendor-availability
    flag and with no credential or vendor input consulted at all (the handlers
    take no vendor oracle); the MCP bridge's handler returns exactly the
    single-field body, while full_mcp_api and simple_api add `service` and
    `google_analytics` fields. -/
theorem C9_health_always_healthy (ga : Bool) :
    (toResponse (health_check_full ga)).status = 200 ∧
    Json.lookup (toResponse (health_check_full ga)).body "status"
      = some (Json.str "healthy") ∧
    (toResponse (health_check_simple ga)).status = 200 ∧
    Json.lookup (toResponse (health_check_simple ga)).body "status"
      = some (Json.str "healthy") ∧
    toResponse health_http_server
      = { status := 200, body := Json.obj [("status", Json.str "healthy")] } :=
  ⟨rfl, rfl, rfl, rfl, rfl⟩

/-! ## Claim C10: the two POST /report variants are observationally equal -/

/-- C10: for every availability flag, vendor behaviour and request body, the
    full_mcp_api and simple_api `POST /report` handlers produce the same
    outcome.  Both are embedded separately from their own sources and agree
    definitionally: they build the same vendor `RunReportRequest` (the theorem
    quantifies over every vendor oracle, so the request passed to the vendor is
    itself observably the same) and shape the response identically. -/
theorem C10_run_report_equivalent (gaAvailable : Bool)
    (vendor : RunReportRequest → Except String RunReportResponse)
    (report : ReportRequest) :
    run_report_full gaAvailable vendor report
      = run_report_simple gaAvailable vendor report := rfl
